import Mathlib

/-!
Verification of the TCP port scanner in `port_scanner.py`.

The scanner's interaction with the operating system's socket layer is
abstracted by `ProbeEvent`: for each probe, the environment either lets
`socket.socket` raise, lets `connect_ex` return an error-indicator code, or
lets `connect_ex` raise a `socket.error`.  Everything else (`scan_port`,
`scan_ports`, `display_results`, `main`) is translated directly from the
source.  The nondeterministic order in which `concurrent.futures.as_completed`
yields finished futures is modelled by a reordering function `collect`;
theorems assume only that `collect` returns a permutation of its input, which
is exactly what `as_completed` guarantees (each submitted future is yielded
once, in an unspecified order).
-/

namespace PortScanner

/-- How the socket layer answers the steps of one `scan_port` probe.

* `socketFails`: `socket.socket(...)` raises `socket.error` (e.g. descriptor
  exhaustion); no socket is created.
* `connectReturns code`: `sock.connect_ex((ip, port))` returns the error
  indicator `code` (`0` on success; otherwise the C-level `connect` errno,
  e.g. `ECONNREFUSED`, `ENETUNREACH`, or `EAGAIN` when the per-socket timeout
  expires — per the Python documentation, `connect_ex` returns an error
  indicator instead of raising for errors reported by the C-level `connect`).
* `connectRaises`: `connect_ex` raises a `socket.error` (the residual raising
  failures the documentation allows). -/
inductive ProbeEvent : Type
  | socketFails
  | connectReturns (code : Int)
  | connectRaises
deriving DecidableEq

/-- The default value of `scan_port`'s `timeout` parameter (line 6 of the
source: `def scan_port(ip, port, timeout=1)`). -/
def scan_port_default_timeout : Nat := 1

/-- `ENETUNREACH` errno on Linux: the C-level `connect` error code for an
unreachable network, returned (not raised) by `connect_ex`. -/
def ENETUNREACH : Int := 101

/-- `scan_port` (lines 18-28): create a socket, set its timeout, call
`connect_ex`, close the socket and classify a `0` return as `'Open'` and any
other return as `'Closed'`; a raised `socket.error` is caught and classified
as `'Error'`.  `ip` and `timeout` do not influence the classification. -/
def scan_port (ip : String) (port : Nat) (timeout : Nat) (ev : ProbeEvent) :
    Nat × String :=
  match ev with
  | ProbeEvent.socketFails => (port, "Error")
  | ProbeEvent.connectReturns result =>
      if result = 0 then (port, "Open") else (port, "Closed")
  | ProbeEvent.connectRaises => (port, "Error")

/-- Socket bookkeeping of one `scan_port` invocation: (sockets opened,
sockets closed).  The source calls `sock.close()` only on the straight-line
path after `connect_ex` returns; the `except socket.error:` handler returns
without closing, so a socket created before a raising `connect_ex` is never
closed. -/
def scan_port_sockets (ev : ProbeEvent) : Nat × Nat :=
  match ev with
  | ProbeEvent.socketFails => (0, 0)
  | ProbeEvent.connectReturns _ => (1, 1)
  | ProbeEvent.connectRaises => (1, 0)

/-- Python's `range(start_port, end_port + 1)` (line 43) as a list. -/
def pyRange (start_port end_port : Nat) : List Nat :=
  List.range' start_port (end_port + 1 - start_port)

/-- The results of the futures submitted on line 47, in submission order.
`scan_port` is submitted with only `ip` and `port`, so every probe runs with
the default timeout. -/
def scan_ports_futures (ip : String) (start_port end_port : Nat)
    (env : Nat → ProbeEvent) : List (Nat × String) :=
  (pyRange start_port end_port).map fun port =>
    scan_port ip port scan_port_default_timeout (env port)

/-- The argument triples `(ip, port, timeout)` with which `scan_ports`
invokes `scan_port`, one per submitted future (line 47:
`executor.submit(scan_port, ip, port)` — the timeout argument is omitted, so
the default applies). -/
def scan_ports_probeCalls (ip : String) (start_port end_port : Nat) :
    List (String × Nat × Nat) :=
  (pyRange start_port end_port).map fun port =>
    (ip, port, scan_port_default_timeout)

/-- The comparison underlying `results.sort(key=lambda x: x[0])` (line 52):
sort by the port component. -/
def portKeyLE (a b : Nat × String) : Bool := decide (a.1 ≤ b.1)

/-- The aggregation step of `scan_ports` (lines 51-53): stable-sort the
gathered results by port number and return them.  There is no size check of
any kind. -/
def aggregate (results : List (Nat × String)) : List (Nat × String) :=
  results.mergeSort portKeyLE

/-- `scan_ports` (lines 30-53): build the futures' results, collect them in
`as_completed` order (`collect`), and sort the collection by port. -/
def scan_ports (ip : String) (start_port end_port : Nat)
    (env : Nat → ProbeEvent)
    (collect : List (Nat × String) → List (Nat × String)) :
    List (Nat × String) :=
  aggregate (collect (scan_ports_futures ip start_port end_port env))

/-- The aggregation step as the spec's words describe it (§4.3): fail —
return an error condition rather than a result — when the gathered
collection's size differs from the expected `PortRange` size.  Stated for
comparison with the source's `aggregate`. -/
def aggregate_spec (expected : Nat) (results : List (Nat × String)) :
    Option (List (Nat × String)) :=
  if results.length = expected then some (aggregate results) else none

/-- The expected number of outcomes for the range `[start_port, end_port]`
(`end_port − start_port + 1` for a valid range). -/
def expectedSize (start_port end_port : Nat) : Nat :=
  end_port + 1 - start_port

/-- The probe-invocation triples of a scheduler as the spec's words describe
it (§4.2, §9): the per-probe timeout is an explicit parameter threaded
through to every probe invocation.  Stated for comparison with the source's
`scan_ports_probeCalls`. -/
def scan_ports_spec_probeCalls (ip : String) (start_port end_port : Nat)
    (timeout : Nat) : List (String × Nat × Nat) :=
  (pyRange start_port end_port).map fun port => (ip, port, timeout)

/-- One user-visible print action of the program. -/
inductive OutputEvent : Type
  | errorInvalidIP (ip : String)
  | errorInvalidRange
  | scanningBanner (ip : String) (start_port end_port : Int)
  | openPortsFound
  | tableHeader
  | tableRow (port : Nat) (status : String)
  | noOpenPorts (start_port end_port : Int)
deriving DecidableEq

/-- `display_results` (lines 55-66): print the table header, then one row per
result whose status is `'Open'`. -/
def display_results (results : List (Nat × String)) : List OutputEvent :=
  OutputEvent.tableHeader ::
    results.filterMap fun r =>
      if r.2 == "Open" then some (OutputEvent.tableRow r.1 r.2) else none

/-- What one program invocation does: the sequence of prints, the probe
invocations dispatched, and the process exit status.  `main` never calls
`sys.exit`; it returns normally on every modelled path, so the interpreter
terminates with status 0. -/
structure MainOutcome where
  output : List OutputEvent
  probeCalls : List (String × Nat × Nat)
  exitCode : Nat
deriving DecidableEq

/-- `main` (lines 84-124) after argument parsing: validate the IP (the
`ipaddress` library check is abstracted as the oracle `ip_valid`), validate
the port range, then scan, filter the open ports and report.  Port arguments
are Python ints, hence `Int`; on the validated path `1 ≤ start_port`, so the
`Int.toNat` conversions are faithful. -/
def main (ip_valid : String → Bool) (ip : String) (start_port end_port : Int)
    (env : Nat → ProbeEvent)
    (collect : List (Nat × String) → List (Nat × String)) : MainOutcome :=
  if ip_valid ip = false then
    { output := [OutputEvent.errorInvalidIP ip], probeCalls := [], exitCode := 0 }
  else if start_port < 1 ∨ end_port > 65535 ∨ start_port > end_port then
    { output := [OutputEvent.errorInvalidRange], probeCalls := [], exitCode := 0 }
  else
    let results := scan_ports ip start_port.toNat end_port.toNat env collect
    let open_ports := results.filter fun r => r.2 == "Open"
    if open_ports.isEmpty then
      { output := [OutputEvent.scanningBanner ip start_port end_port,
                   OutputEvent.noOpenPorts start_port end_port],
        probeCalls := scan_ports_probeCalls ip start_port.toNat end_port.toNat,
        exitCode := 0 }
    else
      { output := [OutputEvent.scanningBanner ip start_port end_port,
                   OutputEvent.openPortsFound] ++ display_results open_ports,
        probeCalls := scan_ports_probeCalls ip start_port.toNat end_port.toNat,
        exitCode := 0 }

/-- The rows of the displayed table, extracted from the print sequence. -/
def tableRows (events : List OutputEvent) : List (Nat × String) :=
  events.filterMap fun ev =>
    match ev with
    | OutputEvent.tableRow port status => some (port, status)
    | _ => none

/-- A validation error message appears in the print sequence. -/
def hasValidationError (events : List OutputEvent) : Prop :=
  (∃ s, OutputEvent.errorInvalidIP s ∈ events) ∨
    OutputEvent.errorInvalidRange ∈ events

/-- The "no open ports" message appears in the print sequence. -/
def hasNoOpenMsg (events : List OutputEvent) : Prop :=
  ∃ s e, OutputEvent.noOpenPorts s e ∈ events

/-- A table of open ports appears in the print sequence. -/
def hasTable (events : List OutputEvent) : Prop :=
  OutputEvent.tableHeader ∈ events

/-! ### Helper lemmas -/

theorem scan_port_fst (ip : String) (port timeout : Nat) (ev : ProbeEvent) :
    (scan_port ip port timeout ev).1 = port := by
  cases ev with
  | socketFails => rfl
  | connectReturns code => by_cases h : code = 0 <;> simp [scan_port, h]
  | connectRaises => rfl

theorem scan_ports_futures_map_fst (ip : String) (s e : Nat)
    (env : Nat → ProbeEvent) :
    (scan_ports_futures ip s e env).map Prod.fst = pyRange s e := by
  unfold scan_ports_futures
  rw [List.map_map]
  have h : (Prod.fst ∘ fun port =>
      scan_port ip port scan_port_default_timeout (env port)) = id := by
    funext p
    simp [scan_port_fst]
  rw [h, List.map_id]

theorem portKeyLE_trans :
    ∀ a b c : Nat × String, portKeyLE a b → portKeyLE b c → portKeyLE a c := by
  intro a b c hab hbc
  simp only [portKeyLE, decide_eq_true_eq] at *
  omega

theorem portKeyLE_total :
    ∀ a b : Nat × String, portKeyLE a b || portKeyLE b a := by
  intro a b
  simp only [portKeyLE]
  by_cases h : a.1 ≤ b.1
  · simp [h]
  · simp [h]
    omega

theorem aggregate_perm (results : List (Nat × String)) :
    (aggregate results).Perm results :=
  List.mergeSort_perm results portKeyLE

theorem aggregate_sorted_le (results : List (Nat × String)) :
    (aggregate results).Pairwise fun a b => a.1 ≤ b.1 := by
  have h := List.sorted_mergeSort portKeyLE_trans portKeyLE_total results
  exact h.imp fun hab => by simpa [portKeyLE] using hab

theorem scan_ports_perm_futures (ip : String) (s e : Nat)
    (env : Nat → ProbeEvent)
    (collect : List (Nat × String) → List (Nat × String))
    (hcollect : ∀ l, (collect l).Perm l) :
    (scan_ports ip s e env collect).Perm (scan_ports_futures ip s e env) :=
  (aggregate_perm _).trans (hcollect _)

theorem scan_ports_map_fst_perm (ip : String) (s e : Nat)
    (env : Nat → ProbeEvent)
    (collect : List (Nat × String) → List (Nat × String))
    (hcollect : ∀ l, (collect l).Perm l) :
    ((scan_ports ip s e env collect).map Prod.fst).Perm (pyRange s e) := by
  have h := (scan_ports_perm_futures ip s e env collect hcollect).map Prod.fst
  rwa [scan_ports_futures_map_fst] at h

theorem sorted_strict_of_nodup_keys {l : List (Nat × String)}
    (hs : l.Pairwise fun a b => a.1 ≤ b.1) (hn : (l.map Prod.fst).Nodup) :
    l.Pairwise fun a b => a.1 < b.1 := by
  have hne : l.Pairwise fun a b => a.1 ≠ b.1 := List.pairwise_map.mp hn
  exact (hs.and hne).imp fun h => lt_of_le_of_ne h.1 h.2

theorem scan_ports_pairwise_lt (ip : String) (s e : Nat)
    (env : Nat → ProbeEvent)
    (collect : List (Nat × String) → List (Nat × String))
    (hcollect : ∀ l, (collect l).Perm l) :
    (scan_ports ip s e env collect).Pairwise fun a b => a.1 < b.1 := by
  apply sorted_strict_of_nodup_keys (aggregate_sorted_le _)
  have hperm := scan_ports_map_fst_perm ip s e env collect hcollect
  exact hperm.nodup_iff.mpr (List.nodup_range' s (e + 1 - s))

theorem eq_of_perm_of_pairwise_lt {l₁ l₂ : List (Nat × String)}
    (hp : l₁.Perm l₂) (h₁ : l₁.Pairwise fun a b => a.1 < b.1)
    (h₂ : l₂.Pairwise fun a b => a.1 < b.1) : l₁ = l₂ := by
  haveI : IsAntisymm (Nat × String) (fun a b => a.1 < b.1) :=
    ⟨fun a b hab hba => absurd (lt_trans hab hba) (lt_irrefl _)⟩
  exact List.eq_of_perm_of_sorted hp h₁ h₂

/-! ### Claims -/

/-- C10: `scan_port` is total over `socket.error` conditions: on every
socket-layer event (`connect_ex` returning any code, or a `socket.error`
raised during socket creation or connection) it returns a pair, never
propagating the exception; the first component is the input `port`
unchanged, and the second is one of exactly `'Open'`, `'Closed'`,
`'Error'`. -/
theorem scan_port_total (ip : String) (port timeout : Nat) (ev : ProbeEvent) :
    (scan_port ip port timeout ev).1 = port ∧
    ((scan_port ip port timeout ev).2 = "Open" ∨
     (scan_port ip port timeout ev).2 = "Closed" ∨
     (scan_port ip port timeout ev).2 = "Error") := by
  cases ev with
  | socketFails => exact ⟨rfl, Or.inr (Or.inr rfl)⟩
  | connectReturns code =>
    by_cases h : code = 0
    · simp [scan_port, h]
    · simp [scan_port, h]
  | connectRaises => exact ⟨rfl, Or.inr (Or.inr rfl)⟩

/-- C4: on the probe where `connect_ex` raises a `socket.error`, `scan_port`
opens one socket and closes none — the `except` handler returns `'Error'`
without releasing the socket, so the socket is NOT closed on every exit
path. -/
theorem scan_port_socket_leak :
    scan_port_sockets ProbeEvent.connectRaises = (1, 0) ∧
    scan_port "192.0.2.1" 80 1 ProbeEvent.connectRaises = (80, "Error") := by
  decide

/-- C3 counterexample: an unreachable network surfaces as the C-level
`connect` error `ENETUNREACH`, which `connect_ex` returns (it does not
raise); the source classifies every nonzero `connect_ex` return as
`'Closed'`, not `'Error'` as the claim states. -/
theorem scan_port_unreachable_not_error :
    scan_port "10.255.255.1" 80 1 (ProbeEvent.connectReturns ENETUNREACH) =
      (80, "Closed") ∧
    scan_port "10.255.255.1" 80 1 (ProbeEvent.connectReturns ENETUNREACH) ≠
      (80, "Error") := by
  decide

/-- C3 amended: `scan_port` classifies `'Open'` exactly when `connect_ex`
returns `0`; `'Closed'` exactly when `connect_ex` returns a nonzero error
indicator (which covers refusal, but also unreachable-network and the
timeout-expiry indicator, since `connect_ex` returns those as codes); and
`'Error'` exactly when a `socket.error` is raised (socket creation failure
such as resource exhaustion, or a raising `connect_ex`). -/
theorem scan_port_classification (ip : String) (port timeout : Nat)
    (ev : ProbeEvent) :
    ((scan_port ip port timeout ev).2 = "Open" ↔
      ev = ProbeEvent.connectReturns 0) ∧
    ((scan_port ip port timeout ev).2 = "Closed" ↔
      ∃ code : Int, code ≠ 0 ∧ ev = ProbeEvent.connectReturns code) ∧
    ((scan_port ip port timeout ev).2 = "Error" ↔
      ev = ProbeEvent.socketFails ∨ ev = ProbeEvent.connectRaises) := by
  cases ev with
  | socketFails => simp [scan_port]
  | connectReturns code =>
    by_cases h : code = 0
    · subst h
      simp [scan_port]
    · simp only [scan_port, if_neg h]
      refine ⟨by simp [h], ⟨fun _ => ⟨code, h, rfl⟩, fun _ => trivial⟩, by simp⟩
  | connectRaises => simp [scan_port]

/-- C5 counterexample: the aggregation step has no size check — on a gathered
collection of the wrong size (one outcome where the range `[1,2]` expects
two) it silently returns a short result, while the spec's aggregator fails
with an error condition. -/
theorem aggregate_no_size_check :
    aggregate [(3, "Open")] = [(3, "Open")] ∧
    ([(3, "Open")] : List (Nat × String)).length ≠ expectedSize 1 2 ∧
    aggregate_spec (expectedSize 1 2) [(3, "Open")] = none := by
  refine ⟨?_, by decide, ?_⟩
  · exact List.mergeSort_singleton (3, "Open")
  · simp [aggregate_spec, expectedSize]

/-- C5 amended: the aggregation step performs no size check: for every
gathered collection, whatever its size, it returns the sorted collection —
a permutation of its input, of the same length — never an error
condition. -/
theorem aggregate_total (results : List (Nat × String)) :
    (aggregate results).length = results.length ∧
    (aggregate results).Perm results :=
  ⟨List.length_mergeSort results, aggregate_perm results⟩

/-- C6 counterexample: the probe invocations of a scan all carry the fixed
default timeout `1`; they differ from what a scheduler threading a configured
timeout (here `5`) would produce.  `scan_ports` has no timeout parameter at
all (line 30), and line 47 submits `scan_port` without a timeout argument. -/
theorem scan_ports_timeout_not_threaded :
    scan_ports_probeCalls "127.0.0.1" 20 21 =
      [("127.0.0.1", 20, 1), ("127.0.0.1", 21, 1)] ∧
    scan_ports_probeCalls "127.0.0.1" 20 21 ≠
      scan_ports_spec_probeCalls "127.0.0.1" 20 21 5 := by
  decide

/-- C6 amended: `scan_ports` accepts no per-probe timeout; every probe
invocation it dispatches uses `scan_port`'s default timeout constant
(1 second). -/
theorem scan_ports_probeCalls_timeout (ip : String) (start_port end_port : Nat) :
    ∀ call ∈ scan_ports_probeCalls ip start_port end_port,
      call.2.2 = scan_port_default_timeout := by
  intro call hc
  unfold scan_ports_probeCalls at hc
  obtain ⟨port, -, rfl⟩ := List.mem_map.mp hc
  rfl

/-- Witness for the C6 amended theorem at a concrete probe call. -/
theorem scan_ports_probeCalls_timeout_witness :
    ("127.0.0.1", 20, 1) ∈ scan_ports_probeCalls "127.0.0.1" 20 22 ∧
    (("127.0.0.1", 20, 1) : String × Nat × Nat).2.2 =
      scan_port_default_timeout :=
  ⟨by decide,
   scan_ports_probeCalls_timeout "127.0.0.1" 20 22 ("127.0.0.1", 20, 1)
     (by decide)⟩

/-- C1: for a valid port range `1 ≤ start_port ≤ end_port ≤ 65535` and any
completion order, the scan result has length `end_port − start_port + 1` and
holds exactly one outcome pair per port of the range — no duplicate, no
missing port. -/
theorem scan_ports_complete (ip : String) (start_port end_port : Nat)
    (env : Nat → ProbeEvent)
    (collect : List (Nat × String) → List (Nat × String))
    (h1 : 1 ≤ start_port) (h2 : start_port ≤ end_port) (h3 : end_port ≤ 65535)
    (hcollect : ∀ l, (collect l).Perm l) :
    (scan_ports ip start_port end_port env collect).length =
      end_port - start_port + 1 ∧
    ∀ p : Nat,
      ((scan_ports ip start_port end_port env collect).map Prod.fst).count p =
        if start_port ≤ p ∧ p ≤ end_port then 1 else 0 := by
  have hperm := scan_ports_map_fst_perm ip start_port end_port env collect
    hcollect
  constructor
  · have hlen := hperm.length_eq
    rw [List.length_map] at hlen
    rw [hlen]
    unfold pyRange
    rw [List.length_range']
    omega
  · intro p
    rw [hperm.count_eq p]
    unfold pyRange
    by_cases hp : start_port ≤ p ∧ p ≤ end_port
    · rw [if_pos hp]
      refine List.count_eq_one_of_mem (List.nodup_range' _ _) ?_
      rw [List.mem_range'_1]
      omega
    · rw [if_neg hp]
      refine List.count_eq_zero_of_not_mem ?_
      rw [List.mem_range'_1]
      omega

/-- Witness for C1: scanning ports 1-3 with the completion order reversed. -/
theorem scan_ports_complete_witness :
    (scan_ports "127.0.0.1" 1 3 (fun _ => ProbeEvent.connectReturns 0)
        List.reverse).length = 3 - 1 + 1 ∧
    ∀ p : Nat,
      ((scan_ports "127.0.0.1" 1 3 (fun _ => ProbeEvent.connectReturns 0)
          List.reverse).map Prod.fst).count p =
        if 1 ≤ p ∧ p ≤ 3 then 1 else 0 :=
  scan_ports_complete "127.0.0.1" 1 3 (fun _ => ProbeEvent.connectReturns 0)
    List.reverse (by decide) (by decide) (by decide) (fun l => l.reverse_perm)

/-- C2: the scan result is strictly ascending by port, and the final result
does not depend on the order in which the per-port outcomes were collected:
any two permutation-collectors yield the same sorted list. -/
theorem scan_ports_sorted_order_independent (ip : String)
    (start_port end_port : Nat) (env : Nat → ProbeEvent)
    (collect₁ collect₂ : List (Nat × String) → List (Nat × String))
    (h₁ : ∀ l, (collect₁ l).Perm l) (h₂ : ∀ l, (collect₂ l).Perm l) :
    (scan_ports ip start_port end_port env collect₁).Pairwise
      (fun a b => a.1 < b.1) ∧
    scan_ports ip start_port end_port env collect₁ =
      scan_ports ip start_port end_port env collect₂ := by
  have hs₁ := scan_ports_pairwise_lt ip start_port end_port env collect₁ h₁
  have hs₂ := scan_ports_pairwise_lt ip start_port end_port env collect₂ h₂
  refine ⟨hs₁, eq_of_perm_of_pairwise_lt ?_ hs₁ hs₂⟩
  exact (scan_ports_perm_futures _ _ _ _ _ h₁).trans
    (scan_ports_perm_futures _ _ _ _ _ h₂).symm

/-- Witness for C2: scanning ports 1-3 (port 2 open) with reversed collection
order agrees with in-order collection and is strictly ascending. -/
theorem scan_ports_sorted_order_independent_witness :
    (scan_ports "127.0.0.1" 1 3
        (fun p => ProbeEvent.connectReturns (if p = 2 then 0 else 111))
        List.reverse).Pairwise (fun a b => a.1 < b.1) ∧
    scan_ports "127.0.0.1" 1 3
        (fun p => ProbeEvent.connectReturns (if p = 2 then 0 else 111))
        List.reverse =
      scan_ports "127.0.0.1" 1 3
        (fun p => ProbeEvent.connectReturns (if p = 2 then 0 else 111)) id :=
  scan_ports_sorted_order_independent "127.0.0.1" 1 3
    (fun p => ProbeEvent.connectReturns (if p = 2 then 0 else 111))
    List.reverse id (fun l => l.reverse_perm) (fun l => List.Perm.refl l)

/-- C8 counterexample: on an invalid IP literal (and likewise on an inverted
range) the program prints the error message and dispatches nothing, but
`main` just returns: the process terminates with exit status 0, not with a
non-zero-equivalent signal as the claim states. -/
theorem main_invalid_exit_zero :
    (main (fun _ => false) "999.999.999.999" 1 100
        (fun _ => ProbeEvent.connectRaises) id).exitCode = 0 ∧
    (main (fun _ => false) "999.999.999.999" 1 100
        (fun _ => ProbeEvent.connectRaises) id).output =
      [OutputEvent.errorInvalidIP "999.999.999.999"] ∧
    (main (fun _ => true) "127.0.0.1" 5 3
        (fun _ => ProbeEvent.connectRaises) id).exitCode = 0 ∧
    (main (fun _ => true) "127.0.0.1" 5 3
        (fun _ => ProbeEvent.connectRaises) id).output =
      [OutputEvent.errorInvalidRange] := by
  decide

/-- C8 amended: on an invalid IP literal or an invalid/inverted port range
the program prints a single user-facing error message, dispatches no probe
(so no socket is opened), and terminates normally with exit status 0. -/
theorem main_invalid_input (ip_valid : String → Bool) (ip : String)
    (start_port end_port : Int) (env : Nat → ProbeEvent)
    (collect : List (Nat × String) → List (Nat × String))
    (h : ip_valid ip = false ∨ start_port < 1 ∨ end_port > 65535 ∨
      start_port > end_port) :
    ((main ip_valid ip start_port end_port env collect).output =
        [OutputEvent.errorInvalidIP ip] ∨
     (main ip_valid ip start_port end_port env collect).output =
        [OutputEvent.errorInvalidRange]) ∧
    (main ip_valid ip start_port end_port env collect).probeCalls = [] ∧
    (main ip_valid ip start_port end_port env collect).exitCode = 0 := by
  by_cases hv : ip_valid ip = false
  · simp [main, hv]
  · have hr : start_port < 1 ∨ end_port > 65535 ∨ start_port > end_port := by
      rcases h with h | h
      · exact absurd h hv
      · exact h
    unfold main
    rw [if_neg hv, if_pos hr]
    simp

/-- Witness for the C8 amended theorem: the inverted range `9 > 1`. -/
theorem main_invalid_input_witness :
    ((main (fun _ => true) "10.0.0.1" 9 1
        (fun _ => ProbeEvent.connectRaises) id).output =
        [OutputEvent.errorInvalidIP "10.0.0.1"] ∨
     (main (fun _ => true) "10.0.0.1" 9 1
        (fun _ => ProbeEvent.connectRaises) id).output =
        [OutputEvent.errorInvalidRange]) ∧
    (main (fun _ => true) "10.0.0.1" 9 1
        (fun _ => ProbeEvent.connectRaises) id).probeCalls = [] ∧
    (main (fun _ => true) "10.0.0.1" 9 1
        (fun _ => ProbeEvent.connectRaises) id).exitCode = 0 :=
  main_invalid_input (fun _ => true) "10.0.0.1" 9 1
    (fun _ => ProbeEvent.connectRaises) id (by decide)

theorem tableRows_filterMap_rows (results : List (Nat × String)) :
    tableRows (results.filterMap fun r =>
        if r.2 == "Open" then some (OutputEvent.tableRow r.1 r.2) else none) =
      results.filter fun r => r.2 == "Open" := by
  unfold tableRows
  induction results with
  | nil => rfl
  | cons r rs ih =>
    obtain ⟨p, st⟩ := r
    by_cases h : st = "Open"
    · subst h
      simp [List.filterMap_cons, List.filter_cons]
      simpa using ih
    · simp [List.filterMap_cons, List.filter_cons, h]
      simpa using ih

theorem tableRows_display_results (results : List (Nat × String)) :
    tableRows (display_results results) =
      results.filter fun r => r.2 == "Open" :=
  tableRows_filterMap_rows results

theorem mem_display_results {ev : OutputEvent} {results : List (Nat × String)} :
    ev ∈ display_results results ↔
      ev = OutputEvent.tableHeader ∨
        ∃ r, r ∈ results ∧ (r.2 == "Open") = true ∧
          ev = OutputEvent.tableRow r.1 r.2 := by
  unfold display_results
  simp only [List.mem_cons, List.mem_filterMap]
  constructor
  · rintro (rfl | ⟨r, hr, hev⟩)
    · exact Or.inl rfl
    · by_cases h : r.2 == "Open"
      · rw [if_pos h] at hev
        exact Or.inr ⟨r, hr, h, (Option.some.inj hev).symm⟩
      · rw [if_neg h] at hev
        cases hev
  · rintro (rfl | ⟨r, hr, h, rfl⟩)
    · exact Or.inl rfl
    · refine Or.inr ⟨r, hr, ?_⟩
      rw [if_pos h]

theorem filter_open_idem (results : List (Nat × String)) :
    ((results.filter fun r => r.2 == "Open").filter fun r => r.2 == "Open") =
      results.filter fun r => r.2 == "Open" := by
  apply List.filter_eq_self.mpr
  intro a ha
  have h2 := List.of_mem_filter ha
  exact h2

/-- C9: each invocation produces exactly one of the three user-visible
behaviours — a validation error message, the "no open ports" message, or a
table of open ports — and the displayed table rows are exactly the `'Open'`
outcomes of the scan, in strictly ascending port order. -/
theorem main_exactly_one_behaviour (ip_valid : String → Bool) (ip : String)
    (start_port end_port : Int) (env : Nat → ProbeEvent)
    (collect : List (Nat × String) → List (Nat × String))
    (hcollect : ∀ l, (collect l).Perm l) :
    ((hasValidationError
        (main ip_valid ip start_port end_port env collect).output ∧
      ¬ hasNoOpenMsg (main ip_valid ip start_port end_port env collect).output ∧
      ¬ hasTable (main ip_valid ip start_port end_port env collect).output) ∨
     (¬ hasValidationError
        (main ip_valid ip start_port end_port env collect).output ∧
      hasNoOpenMsg (main ip_valid ip start_port end_port env collect).output ∧
      ¬ hasTable (main ip_valid ip start_port end_port env collect).output) ∨
     (¬ hasValidationError
        (main ip_valid ip start_port end_port env collect).output ∧
      ¬ hasNoOpenMsg (main ip_valid ip start_port end_port env collect).output ∧
      hasTable (main ip_valid ip start_port end_port env collect).output)) ∧
    (∀ row ∈ tableRows (main ip_valid ip start_port end_port env collect).output,
      row.2 = "Open") ∧
    (tableRows
        (main ip_valid ip start_port end_port env collect).output).Pairwise
      (fun a b => a.1 < b.1) ∧
    (hasTable (main ip_valid ip start_port end_port env collect).output →
      tableRows (main ip_valid ip start_port end_port env collect).output =
        (scan_ports ip start_port.toNat end_port.toNat env collect).filter
          fun r => r.2 == "Open") := by
  by_cases hv : ip_valid ip = false
  · have hout : (main ip_valid ip start_port end_port env collect).output =
        [OutputEvent.errorInvalidIP ip] := by
      simp [main, hv]
    rw [hout]
    simp [hasValidationError, hasNoOpenMsg, hasTable, tableRows]
  · by_cases hrange : start_port < 1 ∨ end_port > 65535 ∨ start_port > end_port
    · have hout : (main ip_valid ip start_port end_port env collect).output =
          [OutputEvent.errorInvalidRange] := by
        unfold main
        rw [if_neg hv, if_pos hrange]
      rw [hout]
      simp [hasValidationError, hasNoOpenMsg, hasTable, tableRows]
    · have hsorted := scan_ports_pairwise_lt ip start_port.toNat end_port.toNat
        env collect hcollect
      by_cases he :
          ((scan_ports ip start_port.toNat end_port.toNat env collect).filter
            fun r => r.2 == "Open").isEmpty
      · have hout : (main ip_valid ip start_port end_port env collect).output =
            [OutputEvent.scanningBanner ip start_port end_port,
             OutputEvent.noOpenPorts start_port end_port] := by
          unfold main
          rw [if_neg hv, if_neg hrange]
          simp only []
          rw [if_pos he]
        rw [hout]
        simp [hasValidationError, hasNoOpenMsg, hasTable, tableRows]
      · have hout : (main ip_valid ip start_port end_port env collect).output =
            OutputEvent.scanningBanner ip start_port end_port ::
              OutputEvent.openPortsFound ::
                display_results
                  ((scan_ports ip start_port.toNat end_port.toNat env
                      collect).filter fun r => r.2 == "Open") := by
          unfold main
          rw [if_neg hv, if_neg hrange]
          simp only []
          rw [if_neg he]
          rfl
        have hrows :
            tableRows (main ip_valid ip start_port end_port env collect).output =
              (scan_ports ip start_port.toNat end_port.toNat env collect).filter
                fun r => r.2 == "Open" := by
          rw [hout]
          have h1 : tableRows (OutputEvent.scanningBanner ip start_port end_port ::
              OutputEvent.openPortsFound ::
                display_results
                  ((scan_ports ip start_port.toNat end_port.toNat env
                      collect).filter fun r => r.2 == "Open")) =
              tableRows (display_results
                ((scan_ports ip start_port.toNat end_port.toNat env
                    collect).filter fun r => r.2 == "Open")) := rfl
          rw [h1, tableRows_display_results, filter_open_idem]
        rw [hout] at hrows ⊢
        refine ⟨Or.inr (Or.inr ⟨?_, ?_, ?_⟩), ?_, ?_, fun _ => hrows⟩
        · rintro (⟨s, hs⟩ | hs) <;>
            simp [mem_display_results] at hs
        · rintro ⟨s, e, hs⟩
          simp [mem_display_results] at hs
        · exact List.mem_cons_of_mem _ (List.mem_cons_of_mem _
            (List.mem_cons_self _ _))
        · intro row hrow
          rw [hrows] at hrow
          have := List.of_mem_filter hrow
          exact beq_iff_eq.mp this
        · rw [hrows]
          exact hsorted.filter _

/-- Witness for C9: a concrete scan of ports 1-2 on which port 1 is open,
collected in reverse order. -/
theorem main_exactly_one_behaviour_witness :
    ((hasValidationError
        (main (fun _ => true) "127.0.0.1" 1 2
          (fun p => ProbeEvent.connectReturns (if p = 1 then 0 else 111))
          List.reverse).output ∧
      ¬ hasNoOpenMsg (main (fun _ => true) "127.0.0.1" 1 2
          (fun p => ProbeEvent.connectReturns (if p = 1 then 0 else 111))
          List.reverse).output ∧
      ¬ hasTable (main (fun _ => true) "127.0.0.1" 1 2
          (fun p => ProbeEvent.connectReturns (if p = 1 then 0 else 111))
          List.reverse).output) ∨
     (¬ hasValidationError
        (main (fun _ => true) "127.0.0.1" 1 2
          (fun p => ProbeEvent.connectReturns (if p = 1 then 0 else 111))
          List.reverse).output ∧
      hasNoOpenMsg (main (fun _ => true) "127.0.0.1" 1 2
          (fun p => ProbeEvent.connectReturns (if p = 1 then 0 else 111))
          List.reverse).output ∧
      ¬ hasTable (main (fun _ => true) "127.0.0.1" 1 2
          (fun p => ProbeEvent.connectReturns (if p = 1 then 0 else 111))
          List.reverse).output) ∨
     (¬ hasValidationError
        (main (fun _ => true) "127.0.0.1" 1 2
          (fun p => ProbeEvent.connectReturns (if p = 1 then 0 else 111))
          List.reverse).output ∧
      ¬ hasNoOpenMsg (main (fun _ => true) "127.0.0.1" 1 2
          (fun p => ProbeEvent.connectReturns (if p = 1 then 0 else 111))
          List.reverse).output ∧
      hasTable (main (fun _ => true) "127.0.0.1" 1 2
          (fun p => ProbeEvent.connectReturns (if p = 1 then 0 else 111))
          List.reverse).output)) ∧
    (∀ row ∈ tableRows (main (fun _ => true) "127.0.0.1" 1 2
        (fun p => ProbeEvent.connectReturns (if p = 1 then 0 else 111))
        List.reverse).output, row.2 = "Open") ∧
    (tableRows (main (fun _ => true) "127.0.0.1" 1 2
        (fun p => ProbeEvent.connectReturns (if p = 1 then 0 else 111))
        List.reverse).output).Pairwise (fun a b => a.1 < b.1) ∧
    (hasTable (main (fun _ => true) "127.0.0.1" 1 2
        (fun p => ProbeEvent.connectReturns (if p = 1 then 0 else 111))
        List.reverse).output →
      tableRows (main (fun _ => true) "127.0.0.1" 1 2
          (fun p => ProbeEvent.connectReturns (if p = 1 then 0 else 111))
          List.reverse).output =
        (scan_ports "127.0.0.1" (Int.toNat 1) (Int.toNat 2)
            (fun p => ProbeEvent.connectReturns (if p = 1 then 0 else 111))
            List.reverse).filter fun r => r.2 == "Open") :=
  main_exactly_one_behaviour (fun _ => true) "127.0.0.1" 1 2
    (fun p => ProbeEvent.connectReturns (if p = 1 then 0 else 111))
    List.reverse (fun l => l.reverse_perm)

end PortScanner
